import Mathlib

/-!
Shallow embedding of the DESFire NFC transport layer
(`src/DesfireNFC.cpp`, `src/ISO7816APDU.cpp` and their headers).

Machine bytes are modelled as `Nat` values below 256, 16-bit words as
`Nat` values below 65536; the `% 256` reductions appear exactly where the
C code narrows a wider value into a `uint8_t`.  Byte buffers are `List Nat`
with an explicit length where the C code tracks one.  The NFC reader behind
`NFCReaderInterface` is modelled as an oracle: `detectCard` answers are a
`Bool × List Nat` pair (poll outcome and the UID bytes it writes), and
`transceive` answers are a function from the call index to
`Option (List Nat)` (`none` = link failure, `some resp` = success with the
response bytes, whose length the reader stores into the out parameter).
-/

/-- `DesfireStatus` from `include/DesfireStatus.h`.  The C enum alias
`DFST_OPERATION_OK` (same numeric value 0x00 as `DFST_SUCCESS`) is omitted
because the two are one value in the source. -/
inductive DesfireStatus where
  | DFST_SUCCESS
  | DFST_MORE_FRAMES
  | DFST_NO_CHANGES
  | DFST_OUT_OF_EEPROM
  | DFST_ILLEGAL_COMMAND
  | DFST_INTEGRITY_ERROR
  | DFST_PARAMETER_ERROR
  | DFST_NO_SUCH_KEY
  | DFST_LENGTH_ERROR
  | DFST_PERMISSION_DENIED
  | DFST_APPLICATION_NOT_FOUND
  | DFST_APPLICATION_INTEGRITY_ERROR
  | DFST_AUTHENTICATION_ERROR
  | DFST_BOUNDARY_ERROR
  | DFST_PICC_INTEGRITY_ERROR
  | DFST_COMMAND_ABORTED
  | DFST_CARD_INTEGRITY_ERROR
  | DFST_DUPLICATE_ERROR
  | DFST_EEPROM_ERROR
  | DFST_FILE_NOT_FOUND
  | DFST_FILE_INTEGRITY_ERROR
  | DFST_LIBRARY_ERROR
  | DFST_COMMUNICATION_ERROR
  | DFST_PARAMETER_NULL
  | DFST_CRYPTO_ERROR
  | DFST_BUFFER_OVERFLOW
  | DFST_BUFFER_TOO_SMALL
  | DFST_ISO_COMMAND_COMPLETED
  | DFST_ISO_FILE_NOT_FOUND
  | DFST_ISO_WRONG_LENGTH
  | DFST_ISO_WRONG_PARAMS
  | DFST_ISO_UNKNOWN_INSTRUCTION
  | DFST_ISO_SECURITY_STATUS_ERROR
  | DFST_ISO_AUTHENTICATION_BLOCKED
  | DFST_ISO_DATA_INVALID
  | DFST_ISO_CONDITION_NOT_SATISFIED
  | DFST_ISO_WRONG_LE
  | DFST_ISO_WRONG_CLA
  deriving DecidableEq, Repr

open DesfireStatus

namespace ISO7816APDU

/-- `ISO7816APDU::convertStatus` (`src/ISO7816APDU.cpp` lines 73-146):
the switch over the 16-bit status word.  The named `ISO7816StatusWord`
constants are inlined to their numeric values from `ISO7816Constants.h`
(`ISO_SW_SUCCESS = 0x9000`, `ISO_SW_SUCCESS_DESFIRE = 0x9100`,
`ISO_SW_FILE_NOT_FOUND = 0x6A82`, `ISO_SW_WRONG_LENGTH = 0x6700`,
`ISO_SW_WRONG_P1P2 = 0x6A86`, `ISO_SW_INS_NOT_SUPPORTED = 0x6D00`,
`ISO_SW_SECURITY_NOT_SATISFIED = 0x6982`, `ISO_SW_AUTH_METHOD_BLOCKED =
0x6983`, `ISO_SW_DATA_INVALID = 0x6984`, `ISO_SW_CONDITIONS_NOT_SATISFIED =
0x6985`, `ISO_SW_WRONG_LE = 0x6C00`, `ISO_SW_CLASS_NOT_SUPPORTED = 0x6E00`). -/
def convertStatus (status : Nat) : DesfireStatus :=
  match status with
  | 0x9000 => DFST_SUCCESS
  | 0x9100 => DFST_SUCCESS
  | 0x91AF => DFST_MORE_FRAMES
  | 0x91AE => DFST_AUTHENTICATION_ERROR
  | 0x91F0 => DFST_FILE_NOT_FOUND
  | 0x910C => DFST_NO_CHANGES
  | 0x910E => DFST_OUT_OF_EEPROM
  | 0x911C => DFST_ILLEGAL_COMMAND
  | 0x911E => DFST_INTEGRITY_ERROR
  | 0x911F => DFST_PARAMETER_ERROR
  | 0x9140 => DFST_NO_SUCH_KEY
  | 0x917E => DFST_LENGTH_ERROR
  | 0x919D => DFST_PERMISSION_DENIED
  | 0x91A0 => DFST_APPLICATION_NOT_FOUND
  | 0x91A1 => DFST_APPLICATION_INTEGRITY_ERROR
  | 0x91BE => DFST_BOUNDARY_ERROR
  | 0x91C1 => DFST_PICC_INTEGRITY_ERROR
  | 0x91CA => DFST_COMMAND_ABORTED
  | 0x91CD => DFST_CARD_INTEGRITY_ERROR
  | 0x91DE => DFST_DUPLICATE_ERROR
  | 0x91EE => DFST_EEPROM_ERROR
  | 0x91F1 => DFST_FILE_INTEGRITY_ERROR
  | 0x6A82 => DFST_ISO_FILE_NOT_FOUND
  | 0x6700 => DFST_ISO_WRONG_LENGTH
  | 0x6A86 => DFST_ISO_WRONG_PARAMS
  | 0x6D00 => DFST_ISO_UNKNOWN_INSTRUCTION
  | 0x6982 => DFST_ISO_SECURITY_STATUS_ERROR
  | 0x6983 => DFST_ISO_AUTHENTICATION_BLOCKED
  | 0x6984 => DFST_ISO_DATA_INVALID
  | 0x6985 => DFST_ISO_CONDITION_NOT_SATISFIED
  | 0x6C00 => DFST_ISO_WRONG_LE
  | 0x6E00 => DFST_ISO_WRONG_CLA
  | _ => DFST_LIBRARY_ERROR

/-- The 32 status words that appear as `case` labels in
`ISO7816APDU::convertStatus`. -/
def convertStatusMappedWords : List Nat :=
  [0x9000, 0x9100, 0x91AF, 0x91AE, 0x91F0, 0x910C, 0x910E, 0x911C, 0x911E,
   0x911F, 0x9140, 0x917E, 0x919D, 0x91A0, 0x91A1, 0x91BE, 0x91C1, 0x91CA,
   0x91CD, 0x91DE, 0x91EE, 0x91F1, 0x6A82, 0x6700, 0x6A86, 0x6D00, 0x6982,
   0x6983, 0x6984, 0x6985, 0x6C00, 0x6E00]

end ISO7816APDU

namespace DesfireNFC

/-- The inline `switch (statusWord)` inside `DesfireNFC::transmit`
(`src/DesfireNFC.cpp` lines 302-348), classifying the extracted 16-bit
status word into a `DesfireStatus`.  Constants inlined as in
`ISO7816APDU.convertStatus`. -/
def transmitClassify (statusWord : Nat) : DesfireStatus :=
  match statusWord with
  | 0x9000 => DFST_SUCCESS
  | 0x9100 => DFST_SUCCESS
  | 0x6700 => DFST_ISO_WRONG_LENGTH
  | 0x6982 => DFST_ISO_SECURITY_STATUS_ERROR
  | 0x6983 => DFST_ISO_AUTHENTICATION_BLOCKED
  | 0x6984 => DFST_ISO_DATA_INVALID
  | 0x6985 => DFST_ISO_CONDITION_NOT_SATISFIED
  | 0x6A82 => DFST_ISO_FILE_NOT_FOUND
  | 0x6A86 => DFST_ISO_WRONG_PARAMS
  | 0x6D00 => DFST_ISO_UNKNOWN_INSTRUCTION
  | 0x6E00 => DFST_ISO_WRONG_CLA
  | _ => DFST_LIBRARY_ERROR

end DesfireNFC

/-- The behaviour of `NFCReaderInterface::transceive` seen by the transport:
the answer to the `k`-th transceive call of the current logical command.
`none` models the reader reporting a link failure (returning `false`);
`some resp` models success with `resp` as the received bytes, whose count
the reader stores into the out length parameter. -/
def TransceiveOracle : Type := Nat → Option (List Nat)

namespace DesfireNFC

/-- `DesfireNFC::buildAPDU` (`src/DesfireNFC.cpp` lines 450-486): header,
then Lc and data when `dataLen > 0`, then Le when `le > 0`.  The C truncation
of `dataLen` above `ISO_MAX_DATA_SIZE` cannot fire (`dataLen` is a `uint8_t`,
255 = `ISO_MAX_DATA_SIZE`), and the null-buffer early return is not
representable (the buffer is a value here); the returned length is the
`uint16_t` write index, which never exceeds 261. -/
def buildAPDU (cla ins p1 p2 : Nat) (data : List Nat) (le : Nat) : List Nat :=
  [cla, ins, p1, p2] ++
    (if 0 < data.length then data.length :: data else []) ++
    (if 0 < le then [le] else [])

/-- `DesfireNFC::transmit` (`src/DesfireNFC.cpp` lines 244-359).
The caller's response buffer is a stack array in every caller, so the
`!response` null check cannot fire and is not modelled.  Returns the
`DesfireStatus`, the bytes copied into the caller's response buffer
(copied only when the status is `DFST_SUCCESS`, matching lines 350-356;
the caller's `responseLen`, initialised to 0 by every caller, is then the
length of that list), and the next transceive call index. -/
def transmit (o : TransceiveOracle) (k : Nat) (command : Nat) (data : List Nat) :
    DesfireStatus × List Nat × Nat :=
  if 0 < data.length ∧ 254 < data.length then (DFST_BUFFER_OVERFLOW, [], k)
  else
    let apdu := buildAPDU 0x90 0x00 0 0 (command :: data) 0
    if apdu.length = 0 then (DFST_BUFFER_OVERFLOW, [], k)
    else
      match o k with
      | none => (DFST_COMMUNICATION_ERROR, [], k + 1)
      | some resp =>
        if resp.length < 2 then (DFST_LENGTH_ERROR, [], k + 1)
        else
          let statusWord :=
            (resp.getD (resp.length - 2) 0) <<< 8 ||| resp.getD (resp.length - 1) 0
          let status := transmitClassify statusWord
          if status = DFST_SUCCESS then (status, resp.take (resp.length - 2), k + 1)
          else (status, [], k + 1)

end DesfireNFC

/-- `DESFireCardVersion` from `include/DesfireTypes.h` (bytes as `Nat`,
the 7-byte `uid` and 5-byte `batchNumber` arrays as lists). -/
structure DESFireCardVersion where
  hardwareVendor : Nat
  hardwareType : Nat
  hardwareSubtype : Nat
  hardwareVersionMajor : Nat
  hardwareVersionMinor : Nat
  hardwareStorageSize : Nat
  hardwareProtocol : Nat
  softwareVendor : Nat
  softwareType : Nat
  softwareSubtype : Nat
  softwareVersionMajor : Nat
  softwareVersionMinor : Nat
  softwareStorageSize : Nat
  softwareProtocol : Nat
  uid : List Nat
  batchNumber : List Nat
  productionWeek : Nat
  productionYear : Nat
  deriving DecidableEq, Repr

namespace DesfireNFC

/-- `DesfireNFC::getVersion(DESFireCardVersion*)` (`src/DesfireNFC.cpp`
lines 140-232) against a transceive oracle, starting at call index 0.
The caller's struct is passed in and the (possibly partially updated)
struct is returned alongside the `bool` result; the `!version` null check
is not modelled (the struct is a value here).
`DF_CMD_GET_VERSION = 0x60`, `DF_CMD_GET_ADDITIONAL_FRAME = 0xAF`. -/
def getVersion (o : TransceiveOracle) (version : DESFireCardVersion) :
    Bool × DESFireCardVersion :=
  let t1 := transmit o 0 0x60 []
  if t1.1 ≠ DFST_SUCCESS ∧ t1.1 ≠ DFST_MORE_FRAMES then (false, version)
  else if 7 ≤ t1.2.1.length then
    let r1 := t1.2.1
    let v1 := { version with
      hardwareVendor := r1.getD 0 0, hardwareType := r1.getD 1 0,
      hardwareSubtype := r1.getD 2 0, hardwareVersionMajor := r1.getD 3 0,
      hardwareVersionMinor := r1.getD 4 0, hardwareStorageSize := r1.getD 5 0,
      hardwareProtocol := r1.getD 6 0 }
    if t1.1 = DFST_MORE_FRAMES then
      let t2 := transmit o t1.2.2 0xAF []
      if t2.1 ≠ DFST_SUCCESS ∧ t2.1 ≠ DFST_MORE_FRAMES then (false, v1)
      else if 7 ≤ t2.2.1.length then
        let r2 := t2.2.1
        let v2 := { v1 with
          softwareVendor := r2.getD 0 0, softwareType := r2.getD 1 0,
          softwareSubtype := r2.getD 2 0, softwareVersionMajor := r2.getD 3 0,
          softwareVersionMinor := r2.getD 4 0, softwareStorageSize := r2.getD 5 0,
          softwareProtocol := r2.getD 6 0 }
        if t2.1 = DFST_MORE_FRAMES then
          let t3 := transmit o t2.2.2 0xAF []
          if t3.1 ≠ DFST_SUCCESS then (false, v2)
          else if 10 ≤ t3.2.1.length then
            let r3 := t3.2.1
            let v3 := { v2 with uid := r3.take 7 }
            if 14 ≤ r3.length then
              (true, { v3 with
                batchNumber := (r3.drop 7).take 5,
                productionWeek := r3.getD 12 0, productionYear := r3.getD 13 0 })
            else
              (true, { v3 with
                batchNumber :=
                  (r3.drop 7).take (r3.length - 9) ++
                    List.replicate (5 - (r3.length - 9)) 0,
                productionWeek := r3.getD (r3.length - 2) 0,
                productionYear := r3.getD (r3.length - 1) 0 })
          else (false, v2)
        else (true, v2)
      else (false, v1)
    else (true, v1)
  else (false, version)

/-- `DesfireNFC::selectApplication` (`src/DesfireNFC.cpp` lines 367-376).
`aid = none` models a null pointer.  The second component is the number
of transceive calls issued (the final call index, starting from 0).
`DF_CMD_SELECT_APPLICATION = 0x5A`; the call reads 3 bytes from `aid`. -/
def selectApplication (o : TransceiveOracle) (aid : Option (List Nat)) :
    DesfireStatus × Nat :=
  match aid with
  | none => (DFST_PARAMETER_NULL, 0)
  | some a =>
    let t := transmit o 0 0x5A (a.take 3)
    (t.1, t.2.2)

end DesfireNFC

namespace ISO7816APDU

/-- `ISO7816APDU::Command` (`include/ISO7816APDU.h`): the 255-byte `data`
array together with its `dataLength` field is modelled as the list `data`
(so `dataLength = data.length`); the remaining byte fields are `Nat`. -/
structure Command where
  cla : Nat
  ins : Nat
  p1 : Nat
  p2 : Nat
  data : List Nat
  le : Nat
  deriving DecidableEq, Repr

/-- `ISO7816APDU::Response` (`include/ISO7816APDU.h`). -/
structure Response where
  data : List Nat
  dataLength : Nat
  status : Nat
  deriving DecidableEq, Repr

/-- `ISO7816APDU::validateCommand` (`src/ISO7816APDU.cpp` lines 148-165).
The null-data-pointer check is not representable (`data` is a value here);
`ISO_MAX_DATA_SIZE = 255`. -/
def validateCommand (cmd : Command) : Bool :=
  if 255 < cmd.data.length then false
  else if 255 < cmd.le then false
  else true

/-- One write of `apdu[index] = v` where `index` is the `uint8_t` write
index: within the already-written prefix it overwrites, at its end it
appends. -/
def bufWrite (l : List Nat) (pos : Nat) (v : Nat) : List Nat :=
  if pos < l.length then l.set pos v else l ++ [v]

/-- The buffer contents after the header writes and the Lc/data writes of
`ISO7816APDU::buildCommand` (`src/ISO7816APDU.cpp` lines 19-30). -/
def apduAfterData (cmd : Command) : List Nat :=
  [cmd.cla, cmd.ins, cmd.p1, cmd.p2] ++
    (if 0 < cmd.data.length then cmd.data.length :: cmd.data else [])

/-- The `uint8_t` write index after the Lc/data writes: 4 past the header,
plus `1 + dataLength` when data is present, wrapping mod 256
(`index += cmd.dataLength` on line 29 is a `uint8_t` addition). -/
def apduIndex1 (cmd : Command) : Nat :=
  (if 0 < cmd.data.length then 5 + cmd.data.length else 4) % 256

/-- The buffer contents after the optional Le write
(`src/ISO7816APDU.cpp` lines 33-35): `apdu[index] = le` at the current
`uint8_t` index. -/
def apduBytes (cmd : Command) : List Nat :=
  if 0 < cmd.le then bufWrite (apduAfterData cmd) (apduIndex1 cmd) cmd.le
  else apduAfterData cmd

/-- The value stored into `*apduLength`: the final `uint8_t` write index. -/
def apduReportedLen (cmd : Command) : Nat :=
  if 0 < cmd.le then (apduIndex1 cmd + 1) % 256 else apduIndex1 cmd

/-- `ISO7816APDU::buildCommand` (`src/ISO7816APDU.cpp` lines 8-39): header,
Lc and data when `dataLength > 0`, Le when `le > 0`.  Returns the status,
the written buffer contents, and the value stored into `*apduLength` —
the final `uint8_t` write index, which wraps mod 256 (after the data
`memcpy` the index is `(5 + dataLength) % 256`, so the Le byte lands at
that wrapped position and the reported length wraps for large data).
The null `apdu`/`apduLength` checks are not representable. -/
def buildCommand (cmd : Command) : DesfireStatus × List Nat × Nat :=
  if validateCommand cmd = false then (DFST_PARAMETER_ERROR, [], 0)
  else (DFST_SUCCESS, apduBytes cmd, apduReportedLen cmd)

/-- `ISO7816APDU::parseResponse` (`src/ISO7816APDU.cpp` lines 41-60).
`responseLength` is the `uint8_t` length argument; `result` is the caller's
struct, returned untouched on the parameter error.
`ISO_STATUS_LENGTH = 2`. -/
def parseResponse (response : List Nat) (responseLength : Nat) (result : Response) :
    DesfireStatus × Response :=
  if responseLength < 2 then (DFST_PARAMETER_ERROR, result)
  else
    let status :=
      (response.getD (responseLength - 2) 0) <<< 8 ||| response.getD (responseLength - 1) 0
    let r1 := { result with status := status }
    if 2 < responseLength then
      (DFST_SUCCESS,
       { r1 with dataLength := responseLength - 2, data := response.take (responseLength - 2) })
    else
      (DFST_SUCCESS, { r1 with dataLength := 0 })

/-- The §8 round trip: build the APDU for `cmd`, let the card echo back the
APDU's data field (the bytes after the 4-byte header and the Lc byte)
followed by the big-endian status word `sw1 sw2`, and parse that response.
The `uint8_t responseLength` argument of `parseResponse` receives the
echoed byte count reduced mod 256. -/
def buildParseRoundTrip (cmd : Command) (sw1 sw2 : Nat) : DesfireStatus × Response :=
  parseResponse ((((buildCommand cmd).2.1.drop 5).take cmd.data.length) ++ [sw1, sw2])
    (((((buildCommand cmd).2.1.drop 5).take cmd.data.length) ++ [sw1, sw2]).length % 256)
    ⟨[], 0, 0⟩

end ISO7816APDU

/-- The private session state of a `DesfireNFC` instance
(`include/DesfireNFC.h` lines 94-120): the 10-byte `_uid` buffer, the
24-byte `_sessionKey` buffer, `_uidLength`, `_cardDetected`,
`_authenticated` and `_cryptoMode` (0 = DES, 1 = 3K3DES, 2 = AES). -/
structure DesfireNFCState where
  uid : List Nat
  uidLength : Nat
  cardDetected : Bool
  sessionKey : List Nat
  authenticated : Bool
  cryptoMode : Nat
  deriving DecidableEq, Repr

namespace DesfireNFC

/-- The state established by the `DesfireNFC` constructor
(`src/DesfireNFC.cpp` lines 34-41): both flags cleared, buffers zeroed,
crypto mode `DF_CRYPTO_DES = 0`. -/
def initState : DesfireNFCState :=
  ⟨List.replicate 10 0, 0, false, List.replicate 24 0, false, 0⟩

/-- `DesfireNFC::detectCard` (`src/DesfireNFC.cpp` lines 70-81).
`poll` is the reader's answer: the returned `bool` and the UID bytes the
reader writes into `_uid` (with their count into `_uidLength`) when the
poll succeeds; on a failed poll the reader leaves the buffers alone. -/
def detectCard (st : DesfireNFCState) (poll : Bool × List Nat) :
    Bool × DesfireNFCState :=
  let st1 :=
    if poll.1 then
      { st with uid := poll.2 ++ st.uid.drop poll.2.length,
                uidLength := poll.2.length, cardDetected := true }
    else { st with cardDetected := false }
  if st1.cardDetected = true ∧ st1.uidLength ≠ 7 then
    (false, { st1 with cardDetected := false })
  else (st1.cardDetected, st1)

/-- `DesfireNFC::getCardUID` (`src/DesfireNFC.cpp` lines 90-113).
`uidNull`/`uidLengthNull` model null output pointers; `uidBuf`/`uidLen`
are the caller's buffer contents and length variable before the call, and
the last two components of the result are their contents after it. -/
def getCardUID (st : DesfireNFCState) (poll : Bool × List Nat)
    (uidNull uidLengthNull : Bool) (uidBuf : List Nat) (uidLen : Nat) :
    Bool × DesfireNFCState × List Nat × Nat :=
  if uidNull = true ∨ uidLengthNull = true then (false, st, uidBuf, uidLen)
  else if st.cardDetected then
    (true, st, st.uid.take st.uidLength ++ uidBuf.drop st.uidLength, st.uidLength)
  else if poll.1 then
    let u := poll.2
    (true,
     { st with uid := u ++ st.uid.drop u.length, uidLength := u.length,
               cardDetected := true },
     u ++ uidBuf.drop u.length, u.length)
  else (false, st, uidBuf, uidLen)

/-- `DesfireNFC::authenticate` (`src/DesfireNFC.cpp` lines 386-435).
`key = none` models a null key pointer.  The key-size switch mirrors the
source (`DF_CRYPTO_DES = 0` wants 8 bytes, `DF_CRYPTO_3K3DES = 1` and
`DF_CRYPTO_AES = 2` want 16); the command sent is
`DF_CMD_AUTHENTICATE = 0x0A` with payload `[keyNo, cryptoMode]`; on
`DFST_SUCCESS` the first `keySize` bytes of `_sessionKey` are overwritten
with the key and `_authenticated` is set. -/
def authenticate (st : DesfireNFCState) (o : TransceiveOracle) (keyNo : Nat)
    (key : Option (List Nat)) (keySize : Nat) : DesfireStatus × DesfireNFCState :=
  match key with
  | none => (DFST_PARAMETER_NULL, st)
  | some keyBytes =>
    let sizeOk : Bool :=
      if st.cryptoMode = 0 then decide (keySize = 8)
      else if st.cryptoMode = 1 then decide (keySize = 16)
      else if st.cryptoMode = 2 then decide (keySize = 16)
      else false
    if sizeOk = false then (DFST_PARAMETER_ERROR, st)
    else
      let t := transmit o 0 0x0A [keyNo, st.cryptoMode]
      if t.1 ≠ DFST_SUCCESS then (t.1, st)
      else
        (DFST_SUCCESS,
         { st with sessionKey := keyBytes.take keySize ++ st.sessionKey.drop keySize,
                   authenticated := true })

end DesfireNFC

/-- All-zero caller version record used as the pre-call contents of the
caller's `DESFireCardVersion` struct in concrete evaluations. -/
def version0 : DESFireCardVersion :=
  ⟨0, 0, 0, 0, 0, 0, 0, 0, 0, 0, 0, 0, 0, 0, List.replicate 7 0, List.replicate 5 0, 0, 0⟩

/-- Hardware-info payload of the first synthetic GET_VERSION frame. -/
def gvFrame1 : List Nat := [0x04, 0x01, 0x01, 0x01, 0x00, 0x1A, 0x05]

/-- Software-info payload of the second synthetic GET_VERSION frame. -/
def gvFrame2 : List Nat := [0x04, 0x01, 0x01, 0x01, 0x04, 0x1A, 0x05]

/-- UID + production payload of the third synthetic GET_VERSION frame:
7-byte UID, 5-byte batch number, week, year. -/
def gvFrame3 : List Nat :=
  [0x04, 0x11, 0x22, 0x33, 0x44, 0x55, 0x66, 0xB1, 0xB2, 0xB3, 0xB4, 0xB5, 0x30, 0x19]

/-- Truncated third frame: 7-byte UID plus only 3 batch bytes. -/
def gvFrame3Short : List Nat :=
  [0x04, 0x11, 0x22, 0x33, 0x44, 0x55, 0x66, 0xB1, 0xB2, 0xB3]

/-- Transceive oracle answering the GET_VERSION sequence with three frames:
frames 1 and 2 end in status word `91 AF`, frame 3 ends in `91 00`. -/
def gvOracle3 : TransceiveOracle := fun k =>
  if k = 0 then some (gvFrame1 ++ [0x91, 0xAF])
  else if k = 1 then some (gvFrame2 ++ [0x91, 0xAF])
  else some (gvFrame3 ++ [0x91, 0x00])

/-- Same oracle with the truncated 10-byte third frame. -/
def gvOracleShort : TransceiveOracle := fun k =>
  if k = 0 then some (gvFrame1 ++ [0x91, 0xAF])
  else if k = 1 then some (gvFrame2 ++ [0x91, 0xAF])
  else some (gvFrame3Short ++ [0x91, 0x00])

/-- Transceive oracle answering every call with the bare DESFire success
status word `91 00`. -/
def swSuccessOracle : TransceiveOracle := fun _ => some [0x91, 0x00]

/-- Transceive oracle whose first answer is a frame ending in status word
`91 AF` and whose second transceive fails at the link level. -/
def gvOracleLinkFail : TransceiveOracle := fun k =>
  if k = 0 then some (gvFrame1 ++ [0x91, 0xAF]) else none

/-- An 8-byte DES key with non-zero bytes. -/
def authKey : List Nat := List.replicate 8 0x05

/-- A `Command` with 254 data bytes (a valid command: `dataLength ≤ 255`). -/
def cmd254 : ISO7816APDU.Command :=
  ⟨0x90, 0x00, 0x00, 0x00, List.replicate 254 0xAB, 0⟩

theorem getD_append_len {α : Type} (d : List α) (a b x : α) :
    (d ++ [a, b]).getD d.length x = a := by
  induction d with
  | nil => rfl
  | cons h t ih => simpa using ih

theorem getD_append_len_succ {α : Type} (d : List α) (a b x : α) :
    (d ++ [a, b]).getD (d.length + 1) x = b := by
  induction d with
  | nil => rfl
  | cons h t ih => simpa using ih

theorem lor_mul_two_pow_add (n : Nat) :
    ∀ a b : Nat, b < 2 ^ n → ((a * 2 ^ n) ||| b) = a * 2 ^ n + b := by
  induction n with
  | zero =>
    intro a b hb
    interval_cases b
    simp
  | succ n ih =>
    intro a b hb
    have hx : (a * 2 ^ (n + 1)) % 2 = 0 := by
      have : a * 2 ^ (n + 1) = (a * 2 ^ n) * 2 := by ring
      omega
    have hdiv : (a * 2 ^ (n + 1)) / 2 = a * 2 ^ n := by
      have : a * 2 ^ (n + 1) = (a * 2 ^ n) * 2 := by ring
      omega
    have hb2 : b / 2 < 2 ^ n := by
      have : 2 ^ (n + 1) = 2 ^ n * 2 := by ring
      omega
    have hd : (a * 2 ^ (n + 1) ||| b) / 2 = a * 2 ^ n + b / 2 := by
      rw [Nat.or_div_two, hdiv, ih a (b / 2) hb2]
    have hm : (a * 2 ^ (n + 1) ||| b) % 2 = b % 2 := by
      have h0 := Nat.testBit_lor (a * 2 ^ (n + 1)) b 0
      simp only [Nat.testBit_zero] at h0
      rcases Nat.mod_two_eq_zero_or_one b with h | h <;>
        rcases Nat.mod_two_eq_zero_or_one (a * 2 ^ (n + 1) ||| b) with h2 | h2 <;>
        simp_all
    omega

theorem byte_lor_eq (a b : Nat) (h : b < 256) : ((a <<< 8) ||| b) = a * 256 + b := by
  have h2 := lor_mul_two_pow_add 8 a b (by norm_num at h ⊢; exact h)
  rw [Nat.shiftLeft_eq]
  norm_num at h2 ⊢
  exact h2

/-- Evaluation of `DesfireNFC.transmit` when the `k`-th transceive succeeds
with a response of at least two bytes, split as `d ++ [a, b]`. -/
theorem transmit_oracle_resp (o : TransceiveOracle) (k cmd : Nat) (data : List Nat)
    (hdl : data.length ≤ 254) (d : List Nat) (a b : Nat)
    (h : o k = some (d ++ [a, b])) :
    DesfireNFC.transmit o k cmd data =
      (DesfireNFC.transmitClassify ((a <<< 8) ||| b),
       if DesfireNFC.transmitClassify ((a <<< 8) ||| b) = DFST_SUCCESS then d else [],
       k + 1) := by
  unfold DesfireNFC.transmit
  have c1 : ¬(0 < data.length ∧ 254 < data.length) := by omega
  rw [if_neg c1]
  have c2 : ¬((DesfireNFC.buildAPDU 0x90 0x00 0 0 (cmd :: data) 0).length = 0) := by
    simp [DesfireNFC.buildAPDU]
  rw [if_neg c2, h]
  have hlen : (d ++ [a, b]).length = d.length + 2 := by simp
  have c3 : ¬((d ++ [a, b]).length < 2) := by omega
  simp only []
  rw [if_neg c3, hlen]
  have e1 : d.length + 2 - 2 = d.length := rfl
  have e2 : d.length + 2 - 1 = d.length + 1 := rfl
  rw [e1, e2, getD_append_len, getD_append_len_succ]
  by_cases hs : DesfireNFC.transmitClassify ((a <<< 8) ||| b) = DFST_SUCCESS
  · rw [if_pos hs, if_pos hs, List.take_left]
  · rw [if_neg hs, if_neg hs]

/-- Evaluation of `DesfireNFC.transmit` when the `k`-th transceive reports
a link failure. -/
theorem transmit_oracle_fail (o : TransceiveOracle) (k cmd : Nat) (data : List Nat)
    (hdl : data.length ≤ 254) (h : o k = none) :
    DesfireNFC.transmit o k cmd data = (DFST_COMMUNICATION_ERROR, [], k + 1) := by
  unfold DesfireNFC.transmit
  have c1 : ¬(0 < data.length ∧ 254 < data.length) := by omega
  rw [if_neg c1]
  have c2 : ¬((DesfireNFC.buildAPDU 0x90 0x00 0 0 (cmd :: data) 0).length = 0) := by
    simp [DesfireNFC.buildAPDU]
  rw [if_neg c2, h]

theorem convertStatus_unmapped_eq (s : Nat)
    (h : s ∉ ISO7816APDU.convertStatusMappedWords) :
    ISO7816APDU.convertStatus s = DFST_LIBRARY_ERROR := by
  unfold ISO7816APDU.convertStatus
  split <;> first
    | rfl
    | (subst_vars; simp [ISO7816APDU.convertStatusMappedWords] at h)

/-- C1: the status classification inside `DesfireNFC::transmit` (its inline
switch) is NOT equal to `ISO7816APDU::convertStatus`: at status word
`0x91AF` the inline switch falls through to `DFST_LIBRARY_ERROR` while
`convertStatus` yields `DFST_MORE_FRAMES`, so `MoreFrames` can never drive
the continuation cycle. -/
theorem transmitClassify_ne_convertStatus_at_91AF :
    DesfireNFC.transmitClassify 0x91AF = DFST_LIBRARY_ERROR ∧
    ISO7816APDU.convertStatus 0x91AF = DFST_MORE_FRAMES ∧
    DesfireNFC.transmitClassify 0x91AF ≠ ISO7816APDU.convertStatus 0x91AF := by
  decide

/-- C2: against the three-frame GET_VERSION oracle (frames 1 and 2 carry
7 info bytes and end in `91 AF`, the status word that `convertStatus` maps
to `DFST_MORE_FRAMES`; frame 3 carries 14 data bytes and ends in `91 00`,
mapped to `DFST_SUCCESS`), `DesfireNFC::getVersion` returns `false` with
the caller's record untouched, because the inline switch in `transmit`
classifies `0x91AF` as `DFST_LIBRARY_ERROR`. -/
theorem getVersion_three_frame_oracle_fails :
    ISO7816APDU.convertStatus 0x91AF = DFST_MORE_FRAMES ∧
    ISO7816APDU.convertStatus 0x9100 = DFST_SUCCESS ∧
    DesfireNFC.getVersion gvOracle3 version0 = (false, version0) := by
  decide

/-- C3: for every transceive oracle whose first GET_VERSION answer is a
frame ending in status word `91 AF` and whose second transceive reports a
link failure, `DesfireNFC::getVersion` returns `false` and the caller's
version record is returned exactly as it was passed in. -/
theorem getVersion_frame2_link_failure (d1 : List Nat) (o : TransceiveOracle)
    (v : DESFireCardVersion) (h0 : o 0 = some (d1 ++ [0x91, 0xAF]))
    (h1 : o 1 = none) :
    DesfireNFC.getVersion o v = (false, v) := by
  have e : DesfireNFC.transmitClassify ((0x91 <<< 8) ||| 0xAF) = DFST_LIBRARY_ERROR := by
    decide
  have ht := transmit_oracle_resp o 0 0x60 [] (by simp) d1 0x91 0xAF h0
  rw [e, if_neg (by decide : ¬(DFST_LIBRARY_ERROR = DFST_SUCCESS))] at ht
  unfold DesfireNFC.getVersion
  rw [ht]
  simp

theorem getVersion_frame2_link_failure_witness :
    DesfireNFC.getVersion gvOracleLinkFail version0 = (false, version0) :=
  getVersion_frame2_link_failure gvFrame1 gvOracleLinkFail version0 rfl rfl

/-- C4 counterexample: with the DES-mode initial state, key number 0, an
8-byte key and a transceive oracle answering `91 00`,
`DesfireNFC::authenticate` returns `DFST_SUCCESS`, sets `_authenticated`,
and overwrites the session key — refuting the claim that no behaviour of
the oracle lets `authenticate` succeed. -/
theorem authenticate_succeeds_on_sw9100 :
    (DesfireNFC.authenticate DesfireNFC.initState swSuccessOracle 0 (some authKey) 8).1 =
      DFST_SUCCESS ∧
    (DesfireNFC.authenticate DesfireNFC.initState swSuccessOracle 0 (some authKey) 8).2.authenticated =
      true ∧
    (DesfireNFC.authenticate DesfireNFC.initState swSuccessOracle 0 (some authKey) 8).2.sessionKey ≠
      DesfireNFC.initState.sessionKey := by
  decide

/-- C4 amended: in DES mode with an 8-byte key size,
`DesfireNFC::authenticate` succeeds, sets the `_authenticated` flag and
stores the caller's key bytes as the session key exactly when the single
transmit of `DF_CMD_AUTHENTICATE` with payload `[keyNo, 0]` returns
`DFST_SUCCESS`; on any other transmit outcome it returns that status and
leaves the state untouched.  No cryptographic exchange takes place. -/
theorem authenticate_mirrors_transmit (st : DesfireNFCState) (o : TransceiveOracle)
    (keyNo : Nat) (key : List Nat) (h : st.cryptoMode = 0) :
    DesfireNFC.authenticate st o keyNo (some key) 8 =
      if (DesfireNFC.transmit o 0 0x0A [keyNo, 0]).1 = DFST_SUCCESS then
        (DFST_SUCCESS,
         { st with sessionKey := key.take 8 ++ st.sessionKey.drop 8,
                   authenticated := true })
      else ((DesfireNFC.transmit o 0 0x0A [keyNo, 0]).1, st) := by
  unfold DesfireNFC.authenticate
  simp only [h]
  by_cases hs : (DesfireNFC.transmit o 0 0x0A [keyNo, 0]).1 = DFST_SUCCESS <;>
    simp [hs]

theorem authenticate_mirrors_transmit_witness :
    DesfireNFC.authenticate DesfireNFC.initState swSuccessOracle 0 (some authKey) 8 =
      if (DesfireNFC.transmit swSuccessOracle 0 0x0A [0, 0]).1 = DFST_SUCCESS then
        (DFST_SUCCESS,
         { DesfireNFC.initState with
             sessionKey := authKey.take 8 ++ DesfireNFC.initState.sessionKey.drop 8,
             authenticated := true })
      else ((DesfireNFC.transmit swSuccessOracle 0 0x0A [0, 0]).1,
            DesfireNFC.initState) :=
  authenticate_mirrors_transmit DesfireNFC.initState swSuccessOracle 0 authKey rfl

/-- C5: `ISO7816APDU::convertStatus` is total on the 16-bit status-word
space — every input yields exactly one `DesfireStatus` — and every input
not among the switch's case labels yields `DFST_LIBRARY_ERROR`, in
particular never `DFST_SUCCESS` or `DFST_MORE_FRAMES`. -/
theorem convertStatus_total_unmapped (s : Nat) (hs : s < 65536) :
    (∀ d1 d2 : DesfireStatus,
        ISO7816APDU.convertStatus s = d1 → ISO7816APDU.convertStatus s = d2 → d1 = d2) ∧
    (s ∉ ISO7816APDU.convertStatusMappedWords →
      ISO7816APDU.convertStatus s = DFST_LIBRARY_ERROR ∧
      ISO7816APDU.convertStatus s ≠ DFST_SUCCESS ∧
      ISO7816APDU.convertStatus s ≠ DFST_MORE_FRAMES) := by
  refine ⟨fun d1 d2 h1 h2 => h1.symm.trans h2, fun hm => ?_⟩
  have he := convertStatus_unmapped_eq s hm
  rw [he]
  exact ⟨rfl, by decide, by decide⟩

theorem convertStatus_total_unmapped_witness :
    (∀ d1 d2 : DesfireStatus,
        ISO7816APDU.convertStatus 0x1234 = d1 → ISO7816APDU.convertStatus 0x1234 = d2 →
        d1 = d2) ∧
    (0x1234 ∉ ISO7816APDU.convertStatusMappedWords →
      ISO7816APDU.convertStatus 0x1234 = DFST_LIBRARY_ERROR ∧
      ISO7816APDU.convertStatus 0x1234 ≠ DFST_SUCCESS ∧
      ISO7816APDU.convertStatus 0x1234 ≠ DFST_MORE_FRAMES) :=
  convertStatus_total_unmapped 0x1234 (by decide)

/-- C6: against the GET_VERSION oracle whose third frame carries only 10
data bytes (7-byte UID + 3 batch bytes) with status word `91 00`,
`DesfireNFC::getVersion` returns `false` with the record untouched — the
truncated-frame tolerance is unreachable because `transmit` classifies the
`0x91AF` continuation frames as `DFST_LIBRARY_ERROR`. -/
theorem getVersion_truncated_frame_fails :
    DesfireNFC.getVersion gvOracleShort version0 = (false, version0) := by
  decide

/-- C8: whenever the reader poll reports success but fills a UID whose
length differs from 7, `DesfireNFC::detectCard` returns `false` and leaves
the card-detected flag `false`. -/
theorem detectCard_rejects_non7 (st : DesfireNFCState) (u : List Nat)
    (h : u.length ≠ 7) :
    (DesfireNFC.detectCard st (true, u)).1 = false ∧
    (DesfireNFC.detectCard st (true, u)).2.cardDetected = false := by
  simp [DesfireNFC.detectCard, h]

theorem detectCard_rejects_non7_witness :
    (DesfireNFC.detectCard DesfireNFC.initState (true, [1, 2, 3, 4])).1 = false ∧
    (DesfireNFC.detectCard DesfireNFC.initState (true, [1, 2, 3, 4])).2.cardDetected =
      false :=
  detectCard_rejects_non7 DesfireNFC.initState [1, 2, 3, 4] (by decide)

/-- C9: `DesfireNFC::selectApplication` with a null `aid` pointer returns
`DFST_PARAMETER_NULL` and issues zero transceive calls, for every
transceive oracle. -/
theorem selectApplication_null_no_transceive (o : TransceiveOracle) :
    DesfireNFC.selectApplication o none = (DFST_PARAMETER_NULL, 0) := rfl

/-- C10: when no card is cached and the reader poll succeeds,
`DesfireNFC::getCardUID` with non-null output arguments returns `true`,
caches the reported UID bytes and their length (whatever that length is —
no 7-byte check), and sets the card-detected flag. -/
theorem getCardUID_caches_unchecked (st : DesfireNFCState) (u uidBuf : List Nat)
    (n : Nat) (h : st.cardDetected = false) :
    (DesfireNFC.getCardUID st (true, u) false false uidBuf n).1 = true ∧
    (DesfireNFC.getCardUID st (true, u) false false uidBuf n).2.1.cardDetected = true ∧
    (DesfireNFC.getCardUID st (true, u) false false uidBuf n).2.1.uidLength = u.length ∧
    (DesfireNFC.getCardUID st (true, u) false false uidBuf n).2.1.uid.take u.length = u := by
  simp [DesfireNFC.getCardUID, h, List.take_left]

theorem getCardUID_caches_unchecked_witness :
    (DesfireNFC.getCardUID DesfireNFC.initState (true, [1, 2, 3, 4]) false false
        (List.replicate 10 0) 0).1 = true ∧
    (DesfireNFC.getCardUID DesfireNFC.initState (true, [1, 2, 3, 4]) false false
        (List.replicate 10 0) 0).2.1.cardDetected = true ∧
    (DesfireNFC.getCardUID DesfireNFC.initState (true, [1, 2, 3, 4]) false false
        (List.replicate 10 0) 0).2.1.uidLength = [1, 2, 3, 4].length ∧
    (DesfireNFC.getCardUID DesfireNFC.initState (true, [1, 2, 3, 4]) false false
        (List.replicate 10 0) 0).2.1.uid.take [1, 2, 3, 4].length = [1, 2, 3, 4] :=
  getCardUID_caches_unchecked DesfireNFC.initState [1, 2, 3, 4] (List.replicate 10 0) 0 rfl

theorem validateCommand_true (cmd : ISO7816APDU.Command)
    (hL : cmd.data.length ≤ 255) (hle : cmd.le ≤ 255) :
    ISO7816APDU.validateCommand cmd = true := by
  unfold ISO7816APDU.validateCommand
  rw [if_neg (by omega), if_neg (by omega)]

theorem buildCommand_valid_eq (cmd : ISO7816APDU.Command)
    (hL : cmd.data.length ≤ 255) (hle : cmd.le ≤ 255) :
    ISO7816APDU.buildCommand cmd =
      (DFST_SUCCESS, ISO7816APDU.apduBytes cmd, ISO7816APDU.apduReportedLen cmd) := by
  unfold ISO7816APDU.buildCommand
  rw [validateCommand_true cmd hL hle, if_neg (by decide)]

/-- The data field of the built APDU sits right after the 4-byte header and
the Lc byte: dropping 5 bytes and taking `dataLength` recovers the
command's data, for every data length up to 253 (for 251..253 the Le byte,
when present, wraps onto the header and does not disturb the data). -/
theorem apduBytes_echo (cmd : ISO7816APDU.Command) (hL : cmd.data.length ≤ 253) :
    ((ISO7816APDU.apduBytes cmd).drop 5).take cmd.data.length = cmd.data := by
  rcases Nat.eq_zero_or_pos cmd.data.length with h0 | h0
  · have hd : cmd.data = [] := List.length_eq_zero.mp h0
    simp [h0, hd]
  · have hsplit : ISO7816APDU.apduAfterData cmd =
        cmd.cla :: cmd.ins :: cmd.p1 :: cmd.p2 :: cmd.data.length :: cmd.data := by
      unfold ISO7816APDU.apduAfterData
      rw [if_pos h0]
      rfl
    have hlen5 : (ISO7816APDU.apduAfterData cmd).length = 5 + cmd.data.length := by
      rw [hsplit]
      simp
      omega
    by_cases hle0 : 0 < cmd.le
    · by_cases hw : cmd.data.length ≤ 250
      · have hidx : ISO7816APDU.apduIndex1 cmd = 5 + cmd.data.length := by
          unfold ISO7816APDU.apduIndex1
          rw [if_pos h0]
          omega
        have hpos : ¬(ISO7816APDU.apduIndex1 cmd < (ISO7816APDU.apduAfterData cmd).length) := by
          rw [hidx, hlen5]
          omega
        unfold ISO7816APDU.apduBytes ISO7816APDU.bufWrite
        rw [if_pos hle0, if_neg hpos, hsplit]
        simp only [List.cons_append, List.drop_succ_cons, List.drop_zero]
        exact List.take_left' rfl
      · have hidx : ISO7816APDU.apduIndex1 cmd = 5 + cmd.data.length - 256 := by
          unfold ISO7816APDU.apduIndex1
          rw [if_pos h0]
          omega
        have hlt : ISO7816APDU.apduIndex1 cmd < (ISO7816APDU.apduAfterData cmd).length := by
          rw [hidx, hlen5]
          omega
        have hlt5 : ISO7816APDU.apduIndex1 cmd < 5 := by
          rw [hidx]
          omega
        unfold ISO7816APDU.apduBytes ISO7816APDU.bufWrite
        rw [if_pos hle0, if_pos hlt, List.drop_set, if_pos hlt5, hsplit]
        simp only [List.drop_succ_cons, List.drop_zero]
        exact List.take_length cmd.data
    · unfold ISO7816APDU.apduBytes
      rw [if_neg hle0, hsplit]
      simp only [List.drop_succ_cons, List.drop_zero]
      exact List.take_length cmd.data

/-- C7 amended (253 instead of 254): for every valid command whose data
length is at most 253 and every status-word byte pair, building the APDU
with `buildCommand` and parsing the echoed data field plus the big-endian
status word with `parseResponse` succeeds and recovers the original data
length and the 16-bit status word exactly. -/
theorem buildParse_roundTrip_le253 (cmd : ISO7816APDU.Command) (sw1 sw2 : Nat)
    (hL : cmd.data.length ≤ 253) (hle : cmd.le ≤ 255) (h2 : sw2 < 256) :
    (ISO7816APDU.buildCommand cmd).1 = DFST_SUCCESS ∧
    (ISO7816APDU.buildParseRoundTrip cmd sw1 sw2).1 = DFST_SUCCESS ∧
    (ISO7816APDU.buildParseRoundTrip cmd sw1 sw2).2.dataLength = cmd.data.length ∧
    (ISO7816APDU.buildParseRoundTrip cmd sw1 sw2).2.status = sw1 * 256 + sw2 := by
  have hb := buildCommand_valid_eq cmd (by omega) hle
  have hecho : ((ISO7816APDU.buildCommand cmd).2.1.drop 5).take cmd.data.length =
      cmd.data := by
    rw [hb]
    exact apduBytes_echo cmd hL
  unfold ISO7816APDU.buildParseRoundTrip
  rw [hecho]
  have hlen : (cmd.data ++ [sw1, sw2]).length = cmd.data.length + 2 := by simp
  have hmod : (cmd.data.length + 2) % 256 = cmd.data.length + 2 := by omega
  rw [hlen, hmod]
  unfold ISO7816APDU.parseResponse
  rw [if_neg (by omega : ¬(cmd.data.length + 2 < 2))]
  have e1 : cmd.data.length + 2 - 2 = cmd.data.length := rfl
  have e2 : cmd.data.length + 2 - 1 = cmd.data.length + 1 := rfl
  rw [e1, e2, getD_append_len, getD_append_len_succ, byte_lor_eq sw1 sw2 h2]
  rcases Nat.eq_zero_or_pos cmd.data.length with h0 | h0
  · rw [if_neg (by omega : ¬(2 < cmd.data.length + 2))]
    exact ⟨by rw [hb], rfl, by rw [h0], rfl⟩
  · rw [if_pos (by omega : 2 < cmd.data.length + 2)]
    exact ⟨by rw [hb], rfl, e1, rfl⟩

theorem buildParse_roundTrip_le253_witness :
    (ISO7816APDU.buildCommand ⟨0x90, 0x00, 0x00, 0x00, [0x60], 0⟩).1 = DFST_SUCCESS ∧
    (ISO7816APDU.buildParseRoundTrip ⟨0x90, 0x00, 0x00, 0x00, [0x60], 0⟩ 0x91 0xAF).1 =
      DFST_SUCCESS ∧
    (ISO7816APDU.buildParseRoundTrip ⟨0x90, 0x00, 0x00, 0x00, [0x60], 0⟩ 0x91 0xAF).2.dataLength =
      (⟨0x90, 0x00, 0x00, 0x00, [0x60], 0⟩ : ISO7816APDU.Command).data.length ∧
    (ISO7816APDU.buildParseRoundTrip ⟨0x90, 0x00, 0x00, 0x00, [0x60], 0⟩ 0x91 0xAF).2.status =
      0x91 * 256 + 0xAF :=
  buildParse_roundTrip_le253 ⟨0x90, 0x00, 0x00, 0x00, [0x60], 0⟩ 0x91 0xAF
    (by decide) (by decide) (by decide)

set_option maxRecDepth 20000 in
/-- C7 counterexample: the command with 254 data bytes is valid and
`buildCommand` accepts it, but the round trip does not recover the data
length and status word — the echoed wire length 254 + 2 wraps to 0 in the
`uint8_t` response-length argument, so `parseResponse` rejects the
response with `DFST_PARAMETER_ERROR`. -/
theorem buildParse_roundTrip_fails_at_254 :
    (ISO7816APDU.buildCommand cmd254).1 = DFST_SUCCESS ∧
    (ISO7816APDU.buildParseRoundTrip cmd254 0x90 0x00).1 = DFST_PARAMETER_ERROR ∧
    (ISO7816APDU.buildParseRoundTrip cmd254 0x90 0x00).2.dataLength ≠ 254 := by
  decide
